import Mathlib

/-!
Shallow embedding of the dispatch / execution-tracking / status-normalization
core of the argo-workflows-aws-plugin repository (Go), together with theorems
settling the frozen claims about it.

Conventions of the embedding:
* Go strings are Lean `String`; Go `map[string]bool` membership sets are Lean
  `List String` with `∈`.
* A Go function that mutates its receiver is modelled as a function returning
  the updated value; `(*PluginRequest).Validate` returns the error (if any)
  together with the final state of the request.
* The outcomes of external collaborator calls (AWS session creation, API
  calls, JSON marshalling) are inputs of the model, packaged in small
  environment structures; the embedded functions reproduce exactly the
  branching the Go code performs on those outcomes.
* Durations are in seconds (`Nat`); `60 * time.Second` becomes `60`.
* Response status codes are the numeric literals the live code stores in
  `PluginResponse.Status`: 1 = success, 2 = error, 3 = running, 0 = unknown
  zero value, exactly as interpreted by the reply builder in plugin.go.
* Go format strings such as `"failed to start aws glue job: %s"` become
  string concatenation; the single quotes Go places around interpolated
  values in a few validation messages are elided.
-/

set_option linter.unusedVariables false
set_option linter.unnecessarySeqFocus false

namespace ArgoAwsPlugin

/-- PluginRequest mirrors the struct of the same name in request.go
(the JSON parameter mapping, used only as an opaque invocation payload, is
modelled as an optional association list). -/
structure PluginRequest where
  kind : String := ""
  accountID : String := ""
  serviceName : String := ""
  action : String := ""
  pipelineName : String := ""
  jobName : String := ""
  stepFunctionName : String := ""
  lambdaFunctionName : String := ""
  parameters : Option (List (String × String)) := none
  resourceArn : String := ""
  regionName : String := ""
  mock : Bool := false
  mockState : String := ""
deriving Repr, DecidableEq

/-- allowedServiceNames mirrors the package-level set in request.go. -/
def allowedServiceNames : List String :=
  ["amazon_sagemaker_pipelines", "aws_glue", "aws_step_functions", "aws_lambda"]

/-- allowedMockStates mirrors the package-level set in request.go; note that
it contains only two entries. -/
def allowedMockStates : List String := ["running", "success"]

/-- allowedActions mirrors the package-level set in request.go. -/
def allowedActions : List String := ["validate", "execute"]

/-- Resource identifier template used for amazon_sagemaker_pipelines in
`Validate` (Sprintf arn:aws:sagemaker:%s:%s:pipeline/%s). -/
def sageMakerPipelineArn (region account name : String) : String :=
  "arn:aws:sagemaker:" ++ region ++ ":" ++ account ++ ":pipeline/" ++ name

/-- Resource identifier template used for aws_glue in `Validate`
(Sprintf arn:aws:glue:%s:%s:job/%s). -/
def glueJobArn (region account name : String) : String :=
  "arn:aws:glue:" ++ region ++ ":" ++ account ++ ":job/" ++ name

/-- Resource identifier template used for aws_step_functions in `Validate`
(Sprintf arn:aws:states:%s:%s:stateMachine:%s). -/
def stepFunctionArn (region account name : String) : String :=
  "arn:aws:states:" ++ region ++ ":" ++ account ++ ":stateMachine:" ++ name

/-- Resource identifier template used for aws_lambda in `Validate`
(Sprintf arn:aws:lambda:%s:%s:function:%s). -/
def lambdaFunctionArn (region account name : String) : String :=
  "arn:aws:lambda:" ++ region ++ ":" ++ account ++ ":function:" ++ name

/-- Embedding of the per-service `switch req.ServiceName` block of
`(*PluginRequest).Validate`: checks the service-specific name field and
assigns the derived resource identifier. -/
def validateServiceFields (req : PluginRequest) : Option String × PluginRequest :=
  if req.serviceName = "amazon_sagemaker_pipelines" then
    if req.pipelineName = "" then (some "pipeline_name is empty", req)
    else (none, { req with resourceArn := sageMakerPipelineArn req.regionName req.accountID req.pipelineName })
  else if req.serviceName = "aws_glue" then
    if req.jobName = "" then (some "job_name is empty", req)
    else (none, { req with resourceArn := glueJobArn req.regionName req.accountID req.jobName })
  else if req.serviceName = "aws_step_functions" then
    if req.stepFunctionName = "" then (some "step_function_name is empty", req)
    else (none, { req with resourceArn := stepFunctionArn req.regionName req.accountID req.stepFunctionName })
  else if req.serviceName = "aws_lambda" then
    if req.lambdaFunctionName = "" then (some "lambda_function_name is empty", req)
    else (none, { req with resourceArn := lambdaFunctionArn req.regionName req.accountID req.lambdaFunctionName })
  else (none, req)

/-- Embedding of the final `if req.Mock` block of `(*PluginRequest).Validate`. -/
def validateMockState (req : PluginRequest) : Option String :=
  if req.mock then
    if req.mockState = "" then some "mock state is empty"
    else if req.mockState ∈ allowedMockStates then none
    else some ("mock state " ++ req.mockState ++ " is not supported")
  else none

/-- Validate is the embedding of `(*PluginRequest).Validate` from request.go.
The Go method mutates the receiver (it assigns `req.ResourceArn`) and returns
an error; here it returns the error (if any) together with the final state of
the request, preserving the exact order of the checks. -/
def PluginRequest.validate (req : PluginRequest) : Option String × PluginRequest :=
  if req.accountID = "" then (some "account_id is empty", req)
  else if req.serviceName = "" then (some "service is empty", req)
  else if req.action = "" then (some "action is empty", req)
  else if req.regionName = "" then (some "region name is empty", req)
  else if req.serviceName ∉ allowedServiceNames then
    (some ("service " ++ req.serviceName ++ " is not supported"), req)
  else if req.action ∉ allowedActions then
    (some ("action " ++ req.action ++ " is not supported"), req)
  else
    match validateServiceFields req with
    | (some e, r) => (some e, r)
    | (none, r) => (validateMockState r, r)

/-- PluginResponse mirrors the struct of the same name (message, status,
should-requeue flag, optional requeue duration, request error, execution
error). Errors are modelled as optional message strings; `none` is the Go
`nil`. The status field holds the numeric codes the live code assigns. -/
structure PluginResponse where
  message : String := ""
  status : Nat := 0
  shouldRequeue : Bool := false
  requeueDuration : Option Nat := none
  requestError : Option String := none
  executionError : Option String := none
deriving Repr, DecidableEq

/-- Modelled from the spec: ExecutionRecord. The file declaring the Go
`PluginWorkflow` struct is not among the sources (only its uses are); its
shape is fixed by those uses: `ID` (external execution id), and a guarded
mutable `Status`/`Message` pair used by the asynchronous invocation path. -/
structure PluginWorkflow where
  id : String := ""
  status : String := ""
  message : String := ""
deriving Repr, DecidableEq

/-- Tracker models `ExecutorPlugin.Workflows` (`map[string]*PluginWorkflow`)
as an association list; insertion conses, lookup takes the newest binding,
which matches Go map overwrite semantics for lookup purposes. -/
abbrev Tracker := List (String × PluginWorkflow)

/-- Node phase of the orchestration engine reply
(`wfv1.NodeSucceeded` / `wfv1.NodeRunning` / `wfv1.NodeError`). -/
inductive NodePhase
  | succeeded
  | running
  | error
deriving Repr, DecidableEq

/-- NodeReply is the node result plus requeue duration marshalled by
`handleTemplateExecute` into `executor.ExecuteTemplateReply`. -/
structure NodeReply where
  phase : NodePhase
  message : String
  requeue : Option Nat
deriving Repr, DecidableEq

/-- WireReply is the observable outcome of the deferred reply block in
`handleTemplateExecute`: HTTP 400 with no node result when a request error is
set, otherwise an HTTP 200 node reply. -/
inductive WireReply
  | badRequest
  | ok (reply : NodeReply)
deriving Repr, DecidableEq

/-- Projection of the phase of a `WireReply`, `none` for a bad request. -/
def WireReply.phase : WireReply → Option NodePhase
  | WireReply.badRequest => none
  | WireReply.ok r => some r.phase

/-- Projection of the message of a `WireReply`, `none` for a bad request. -/
def WireReply.message : WireReply → Option String
  | WireReply.badRequest => none
  | WireReply.ok r => some r.message

/-- buildReply is the embedding of the deferred response-builder block of
`handleTemplateExecute` in plugin.go: the `switch resp.Status` mapping of the
numeric status to a node phase, the default messages, and the default
60-second requeue duration for the running case. -/
def buildReply (resp : PluginResponse) : WireReply :=
  if resp.requestError.isSome then WireReply.badRequest
  else if resp.status = 1 then
    WireReply.ok
      { phase := NodePhase.succeeded
        message := if resp.message = "" then "success" else resp.message
        requeue := resp.requeueDuration }
  else if resp.status = 2 then
    WireReply.ok
      { phase := NodePhase.error
        message :=
          if resp.message = "" then
            match resp.executionError with
            | some e => e
            | none => "error"
          else resp.message
        requeue := resp.requeueDuration }
  else if resp.status = 3 then
    WireReply.ok
      { phase := NodePhase.running
        message := if resp.message = "" then "running" else resp.message
        requeue :=
          match resp.requeueDuration with
          | some d => some d
          | none => some 60 }
  else
    WireReply.ok
      { phase := NodePhase.error
        message :=
          if resp.message = "" then
            match resp.executionError with
            | some e => e
            | none => "unknown error"
          else resp.message
        requeue := resp.requeueDuration }

/-- mockResponse is the embedding of the `if pluginInput.Mock` switch in
`handleTemplateExecute`; `none` means the switch matched no case and control
falls through to the service dispatch. The execution error for the error case
is `ErrExecutionError.WithArgs("expected mock error")`. -/
def mockResponse (state : String) : Option PluginResponse :=
  if state = "success" then some { status := 1 }
  else if state = "error" then
    some { status := 2, executionError := some "failed execution: expected mock error" }
  else if state = "running" then some { shouldRequeue := true, status := 3 }
  else none

/-- CheckEnv packages the collaborator outcomes a status-check operation
branches on: session creation, the describe/get call, serialization of its
output, plus the native status token and serialized body of the output. -/
structure CheckEnv where
  sessionErr : Option String := none
  callErr : Option String := none
  marshalErr : Option String := none
  statusToken : String := ""
  serialized : String := ""
deriving Repr, DecidableEq

/-- StartCallEnv packages the collaborator outcomes a start operation
branches on: session creation, the start call, serialization of its output,
plus the external execution id and serialized body of the output. -/
structure StartCallEnv where
  sessionErr : Option String := none
  callErr : Option String := none
  marshalErr : Option String := none
  executionId : String := ""
  serialized : String := ""
deriving Repr, DecidableEq

/-- CheckIfSageMakerPipelineExists embeds the existence check of
amazon_sagemaker_pipelines (DescribePipeline on the derived identifier). -/
def CheckIfSageMakerPipelineExists (req : PluginRequest) (env : CheckEnv) : PluginResponse :=
  match env.sessionErr with
  | some e => { executionError := some ("failed to create aws session: " ++ e), status := 2 }
  | none =>
  match env.callErr with
  | some e => { executionError := some ("failed to describe amazon sagemaker pipeline: " ++ e), status := 2 }
  | none =>
  match env.marshalErr with
  | some e => { executionError := some ("failed to pack amazon sagemaker pipeline check response: " ++ e), status := 2 }
  | none => { message := env.serialized, status := 1 }

/-- StartSageMakerPipelineExecution embeds the start operation of
amazon_sagemaker_pipelines. It returns the response together with the
optional tracker insertion (`ex.Workflows[workflowID] = &PluginWorkflow{ID:
executionArn}`) performed just before the successful return. The session
error return carries no status assignment in the source, hence status 0. -/
def StartSageMakerPipelineExecution (req : PluginRequest) (workflowID : String)
    (env : StartCallEnv) : PluginResponse × Option (String × PluginWorkflow) :=
  match env.sessionErr with
  | some e => ({ executionError := some ("failed to create aws session: " ++ e) }, none)
  | none =>
  match env.callErr with
  | some e => ({ executionError := some ("failed to start amazon sagemaker pipeline: " ++ e), status := 2 }, none)
  | none =>
  match env.marshalErr with
  | some e => ({ executionError := some ("failed to pack amazon sagemaker pipeline start response: " ++ e), status := 2 }, none)
  | none =>
  if env.executionId = "" then
    ({ executionError := some "amazon sagemaker pipeline start response has no execution ARN", status := 2 }, none)
  else
    ({ message := env.serialized, shouldRequeue := true, requeueDuration := some 60, status := 3 },
     some (workflowID, { id := env.executionId }))

/-- CheckSageMakerPipelineExecution embeds the poll operation of
amazon_sagemaker_pipelines, including its native status switch
(Succeeded; Stopped, Failed; default). -/
def CheckSageMakerPipelineExecution (req : PluginRequest) (executionID : String)
    (env : CheckEnv) : PluginResponse :=
  match env.sessionErr with
  | some e => { executionError := some ("failed to create aws session: " ++ e), status := 2 }
  | none =>
  match env.callErr with
  | some e => { executionError := some ("failed to describe amazon sagemaker pipeline execution: " ++ e), status := 2 }
  | none =>
  match env.marshalErr with
  | some e => { executionError := some ("failed to pack amazon sagemaker pipeline execution response: " ++ e), status := 2 }
  | none =>
  if env.statusToken = "Succeeded" then { message := env.serialized, status := 1 }
  else if env.statusToken = "Stopped" ∨ env.statusToken = "Failed" then
    { message := env.serialized, status := 2 }
  else
    { message := env.serialized, shouldRequeue := true, requeueDuration := some 60, status := 3 }

/-- CheckIfGlueJobExists embeds the existence check of aws_glue. -/
def CheckIfGlueJobExists (req : PluginRequest) (env : CheckEnv) : PluginResponse :=
  match env.sessionErr with
  | some e => { executionError := some ("failed to create aws session: " ++ e), status := 2 }
  | none =>
  match env.callErr with
  | some e => { executionError := some ("failed to describe aws glue job: " ++ e), status := 2 }
  | none =>
  match env.marshalErr with
  | some e => { executionError := some ("failed to pack aws glue job check response: " ++ e), status := 2 }
  | none => { message := env.serialized, status := 1 }

/-- StartGlueJobExecution embeds the start operation of aws_glue, returning
the response together with the optional tracker insertion
(`ex.Workflows[workflowID] = &PluginWorkflow{ID: jobRunID}`). -/
def StartGlueJobExecution (req : PluginRequest) (workflowID : String)
    (env : StartCallEnv) : PluginResponse × Option (String × PluginWorkflow) :=
  match env.sessionErr with
  | some e => ({ executionError := some ("failed to create aws session: " ++ e) }, none)
  | none =>
  match env.callErr with
  | some e => ({ executionError := some ("failed to start aws glue job: " ++ e), status := 2 }, none)
  | none =>
  match env.marshalErr with
  | some e => ({ executionError := some ("failed to pack aws glue job start response: " ++ e), status := 2 }, none)
  | none =>
  if env.executionId = "" then
    ({ executionError := some "aws glue job start response has no job run id", status := 2 }, none)
  else
    ({ message := env.serialized, shouldRequeue := true, requeueDuration := some 60, status := 3 },
     some (workflowID, { id := env.executionId }))

/-- CheckGlueJobExecution embeds the poll operation of aws_glue, including
its native status switch (SUCCEEDED; STOPPED, FAILED, ERROR, TIMEOUT;
default). -/
def CheckGlueJobExecution (req : PluginRequest) (jobRunID : String)
    (env : CheckEnv) : PluginResponse :=
  match env.sessionErr with
  | some e => { executionError := some ("failed to create aws session: " ++ e), status := 2 }
  | none =>
  match env.callErr with
  | some e => { executionError := some ("failed to get aws glue job run: " ++ e), status := 2 }
  | none =>
  match env.marshalErr with
  | some e => { executionError := some ("failed to pack aws glue job execution response: " ++ e), status := 2 }
  | none =>
  if env.statusToken = "SUCCEEDED" then { message := env.serialized, status := 1 }
  else if env.statusToken = "STOPPED" ∨ env.statusToken = "FAILED" ∨
      env.statusToken = "ERROR" ∨ env.statusToken = "TIMEOUT" then
    { message := env.serialized, status := 2 }
  else
    { message := env.serialized, shouldRequeue := true, requeueDuration := some 60, status := 3 }

/-- CheckIfStepFunctionExists embeds the existence check of
aws_step_functions. -/
def CheckIfStepFunctionExists (req : PluginRequest) (env : CheckEnv) : PluginResponse :=
  match env.sessionErr with
  | some e => { executionError := some ("failed to create aws session: " ++ e), status := 2 }
  | none =>
  match env.callErr with
  | some e => { executionError := some ("failed to describe aws step function: " ++ e), status := 2 }
  | none =>
  match env.marshalErr with
  | some e => { executionError := some ("failed to pack aws step function check response: " ++ e), status := 2 }
  | none => { message := env.serialized, status := 1 }

/-- StartStepFunctionExecution embeds the start operation of
aws_step_functions, returning the response together with the optional tracker
insertion (`ex.Workflows[workflowID] = &PluginWorkflow{ID: executionArn}`). -/
def StartStepFunctionExecution (req : PluginRequest) (workflowID : String)
    (env : StartCallEnv) : PluginResponse × Option (String × PluginWorkflow) :=
  match env.sessionErr with
  | some e => ({ executionError := some ("failed to create aws session: " ++ e) }, none)
  | none =>
  match env.callErr with
  | some e => ({ executionError := some ("failed to start aws step function: " ++ e), status := 2 }, none)
  | none =>
  match env.marshalErr with
  | some e => ({ executionError := some ("failed to pack aws step function start response: " ++ e), status := 2 }, none)
  | none =>
  if env.executionId = "" then
    ({ executionError := some "aws step function start response has no execution ARN", status := 2 }, none)
  else
    ({ message := env.serialized, shouldRequeue := true, requeueDuration := some 60, status := 3 },
     some (workflowID, { id := env.executionId }))

/-- CheckStepFunctionExecution embeds the poll operation of
aws_step_functions, including its native status switch (SUCCEEDED; TIMED_OUT,
FAILED, ABORTED; default). -/
def CheckStepFunctionExecution (req : PluginRequest) (executionID : String)
    (env : CheckEnv) : PluginResponse :=
  match env.sessionErr with
  | some e => { executionError := some ("failed to create aws session: " ++ e), status := 2 }
  | none =>
  match env.callErr with
  | some e => { executionError := some ("failed to describe aws step function execution: " ++ e), status := 2 }
  | none =>
  match env.marshalErr with
  | some e => { executionError := some ("failed to pack aws step function execution response: " ++ e), status := 2 }
  | none =>
  if env.statusToken = "SUCCEEDED" then { message := env.serialized, status := 1 }
  else if env.statusToken = "TIMED_OUT" ∨ env.statusToken = "FAILED" ∨
      env.statusToken = "ABORTED" then
    { message := env.serialized, status := 2 }
  else
    { message := env.serialized, shouldRequeue := true, requeueDuration := some 60, status := 3 }

/-- CheckIfLambdaFunctionExists embeds the existence check of aws_lambda. -/
def CheckIfLambdaFunctionExists (req : PluginRequest) (env : CheckEnv) : PluginResponse :=
  match env.sessionErr with
  | some e => { executionError := some ("failed to create aws session: " ++ e), status := 2 }
  | none =>
  match env.callErr with
  | some e => { executionError := some ("failed to describe aws lambda function: " ++ e), status := 2 }
  | none =>
  match env.marshalErr with
  | some e => { executionError := some ("failed to pack aws lambda function check response: " ++ e), status := 2 }
  | none => { message := env.serialized, status := 1 }

/-- AsyncEnv packages everything the detached unit of work of the
asynchronous invocation path branches on: a recovered runtime fault (the
message of the error value caught by `recover`), the session, payload
serialization, invoke, and output serialization outcomes, and the serialized
invoke output. -/
structure AsyncEnv where
  panicMsg : Option String := none
  sessionErr : Option String := none
  payloadMarshalErr : Option String := none
  invokeErr : Option String := none
  outputMarshalErr : Option String := none
  serialized : String := ""
deriving Repr, DecidableEq

/-- InvokeLambdaFunctionAsync embeds the detached unit of work of the
asynchronous invocation path as the transition it applies to its execution
record: each failure branch (and the deferred `recover` handler) stores
status FAILED with a descriptive message under the record guard, the final
branch stores status SUCCEEDED with the serialized invoke output. The
payload serialization step is reached only when the request carries a
parameter mapping. -/
def InvokeLambdaFunctionAsync (req : PluginRequest) (env : AsyncEnv)
    (wf : PluginWorkflow) : PluginWorkflow :=
  match env.panicMsg with
  | some m => { wf with status := "FAILED", message := m }
  | none =>
  match env.sessionErr with
  | some e => { wf with status := "FAILED", message := "failed to create aws session: " ++ e }
  | none =>
  match req.parameters, env.payloadMarshalErr with
  | some _, some e =>
      { wf with status := "FAILED", message := "failed to build aws lambda invocation payload: " ++ e }
  | _, _ =>
  match env.invokeErr with
  | some e => { wf with status := "FAILED", message := "aws lambda invocation failed: " ++ e }
  | none =>
  match env.outputMarshalErr with
  | some e => { wf with status := "FAILED", message := "failed to pack aws lambda invocation response: " ++ e }
  | none => { wf with status := "SUCCEEDED", message := env.serialized }

/-- StartLambdaFunctionExecution embeds the dispatcher-facing start of the
asynchronous invocation path: it unconditionally records a fresh RUNNING
record under the workflow id, spawns the detached unit of work (modelled
separately by `InvokeLambdaFunctionAsync`), and immediately returns a running
response with a 5-second requeue duration. -/
def StartLambdaFunctionExecution (req : PluginRequest) (workflowID : String) :
    PluginResponse × (String × PluginWorkflow) :=
  ({ message := "started aws lambda function async execution",
     shouldRequeue := true, requeueDuration := some 5, status := 3 },
   (workflowID, { status := "RUNNING", message := "running aws lambda function async execution" }))

/-- CheckLambdaFunctionExecution embeds the poll operation of aws_lambda: a
guarded read of the record status (SUCCEEDED; FAILED; default RUNNING). -/
def CheckLambdaFunctionExecution (req : PluginRequest) (wf : PluginWorkflow) : PluginResponse :=
  if wf.status = "SUCCEEDED" then { message := wf.message, status := 1 }
  else if wf.status = "FAILED" then { message := wf.message, status := 2 }
  else
    { message := wf.message, shouldRequeue := true, requeueDuration := some 5, status := 3 }

/-- ServiceEvent records which collaborator operation an `execute` dispatch
invoked: a start call, a poll call carrying the external execution id it was
given, or (for the asynchronous invocation path) a poll reading a tracker
record. -/
inductive ServiceEvent
  | startCall (service : String)
  | pollById (service : String) (execId : String)
  | pollRecord (service : String) (wf : PluginWorkflow)
deriving Repr, DecidableEq

/-- DispatchResult bundles what one `execute` dispatch produced: the plugin
response, the tracker state after the dispatch, and the collaborator
operations invoked. -/
structure DispatchResult where
  resp : PluginResponse
  tracker : Tracker
  events : List ServiceEvent

/-- insertRecord applies an optional tracker insertion. -/
def insertRecord (tracker : Tracker) : Option (String × PluginWorkflow) → Tracker
  | none => tracker
  | some kv => kv :: tracker

/-- lookupRecord is association-list lookup on the tracker, newest binding
first, matching Go map lookup after overwrites. -/
def lookupRecord (tracker : Tracker) (wfID : String) : Option PluginWorkflow :=
  match tracker with
  | [] => none
  | (k, v) :: rest => if k = wfID then some v else lookupRecord rest wfID

/-- executeDispatch embeds the `case "execute"` arms of the service switch in
`handleTemplateExecute`: when the workflow id is already in
`ex.Workflows` the service poll operation is called with the recorded
external execution id (the record itself on the asynchronous invocation
path); otherwise the service start operation is called and its tracker
insertion applied. The final `default` arm of the Go switch produces a
request-error response without touching the tracker. -/
def executeDispatch (req : PluginRequest) (wfID : String) (tracker : Tracker)
    (startEnv : StartCallEnv) (checkEnv : CheckEnv) : DispatchResult :=
  if req.serviceName = "amazon_sagemaker_pipelines" then
    match lookupRecord tracker wfID with
    | some wf =>
        { resp := CheckSageMakerPipelineExecution req wf.id checkEnv
          tracker := tracker
          events := [ServiceEvent.pollById req.serviceName wf.id] }
    | none =>
        let r := StartSageMakerPipelineExecution req wfID startEnv
        { resp := r.1, tracker := insertRecord tracker r.2
          events := [ServiceEvent.startCall req.serviceName] }
  else if req.serviceName = "aws_glue" then
    match lookupRecord tracker wfID with
    | some wf =>
        { resp := CheckGlueJobExecution req wf.id checkEnv
          tracker := tracker
          events := [ServiceEvent.pollById req.serviceName wf.id] }
    | none =>
        let r := StartGlueJobExecution req wfID startEnv
        { resp := r.1, tracker := insertRecord tracker r.2
          events := [ServiceEvent.startCall req.serviceName] }
  else if req.serviceName = "aws_step_functions" then
    match lookupRecord tracker wfID with
    | some wf =>
        { resp := CheckStepFunctionExecution req wf.id checkEnv
          tracker := tracker
          events := [ServiceEvent.pollById req.serviceName wf.id] }
    | none =>
        let r := StartStepFunctionExecution req wfID startEnv
        { resp := r.1, tracker := insertRecord tracker r.2
          events := [ServiceEvent.startCall req.serviceName] }
  else if req.serviceName = "aws_lambda" then
    match lookupRecord tracker wfID with
    | some wf =>
        { resp := CheckLambdaFunctionExecution req wf
          tracker := tracker
          events := [ServiceEvent.pollRecord req.serviceName wf] }
    | none =>
        let r := StartLambdaFunctionExecution req wfID
        { resp := r.1, tracker := r.2 :: tracker
          events := [ServiceEvent.startCall req.serviceName] }
  else
    { resp := { requestError := some "malformed plugin input: unsupported service name", status := 2 }
      tracker := tracker
      events := [] }

/-- StartCallEnv.ok tells whether a start collaborator interaction succeeded
end to end and produced a non-empty external execution id. -/
def StartCallEnv.ok (env : StartCallEnv) : Bool :=
  env.sessionErr.isNone && env.callErr.isNone && env.marshalErr.isNone &&
    !(env.executionId == "")

/-- requeueIffRunning is the invariant relating the should-requeue flag of a
response to its status code. -/
def requeueIffRunning (r : PluginResponse) : Prop :=
  r.shouldRequeue = true ↔ r.status = 3

lemma requeueIff_CheckIfSageMakerPipelineExists (req : PluginRequest) (env : CheckEnv) :
    requeueIffRunning (CheckIfSageMakerPipelineExists req env) := by
  obtain ⟨se, ce, me, t, b⟩ := env
  cases se <;> cases ce <;> cases me <;>
    simp [requeueIffRunning, CheckIfSageMakerPipelineExists]

lemma requeueIff_StartSageMakerPipelineExecution (req : PluginRequest)
    (wfID : String) (env : StartCallEnv) :
    requeueIffRunning (StartSageMakerPipelineExecution req wfID env).1 := by
  obtain ⟨se, ce, me, xid, b⟩ := env
  cases se <;> cases ce <;> cases me <;>
    simp [requeueIffRunning, StartSageMakerPipelineExecution] <;>
    split_ifs <;> simp

lemma requeueIff_CheckSageMakerPipelineExecution (req : PluginRequest)
    (executionID : String) (env : CheckEnv) :
    requeueIffRunning (CheckSageMakerPipelineExecution req executionID env) := by
  obtain ⟨se, ce, me, t, b⟩ := env
  cases se <;> cases ce <;> cases me <;>
    simp [requeueIffRunning, CheckSageMakerPipelineExecution] <;>
    split_ifs <;> simp

lemma requeueIff_CheckIfGlueJobExists (req : PluginRequest) (env : CheckEnv) :
    requeueIffRunning (CheckIfGlueJobExists req env) := by
  obtain ⟨se, ce, me, t, b⟩ := env
  cases se <;> cases ce <;> cases me <;>
    simp [requeueIffRunning, CheckIfGlueJobExists]

lemma requeueIff_StartGlueJobExecution (req : PluginRequest)
    (wfID : String) (env : StartCallEnv) :
    requeueIffRunning (StartGlueJobExecution req wfID env).1 := by
  obtain ⟨se, ce, me, xid, b⟩ := env
  cases se <;> cases ce <;> cases me <;>
    simp [requeueIffRunning, StartGlueJobExecution] <;>
    split_ifs <;> simp

lemma requeueIff_CheckGlueJobExecution (req : PluginRequest)
    (jobRunID : String) (env : CheckEnv) :
    requeueIffRunning (CheckGlueJobExecution req jobRunID env) := by
  obtain ⟨se, ce, me, t, b⟩ := env
  cases se <;> cases ce <;> cases me <;>
    simp [requeueIffRunning, CheckGlueJobExecution] <;>
    split_ifs <;> simp

lemma requeueIff_CheckIfStepFunctionExists (req : PluginRequest) (env : CheckEnv) :
    requeueIffRunning (CheckIfStepFunctionExists req env) := by
  obtain ⟨se, ce, me, t, b⟩ := env
  cases se <;> cases ce <;> cases me <;>
    simp [requeueIffRunning, CheckIfStepFunctionExists]

lemma requeueIff_StartStepFunctionExecution (req : PluginRequest)
    (wfID : String) (env : StartCallEnv) :
    requeueIffRunning (StartStepFunctionExecution req wfID env).1 := by
  obtain ⟨se, ce, me, xid, b⟩ := env
  cases se <;> cases ce <;> cases me <;>
    simp [requeueIffRunning, StartStepFunctionExecution] <;>
    split_ifs <;> simp

lemma requeueIff_CheckStepFunctionExecution (req : PluginRequest)
    (executionID : String) (env : CheckEnv) :
    requeueIffRunning (CheckStepFunctionExecution req executionID env) := by
  obtain ⟨se, ce, me, t, b⟩ := env
  cases se <;> cases ce <;> cases me <;>
    simp [requeueIffRunning, CheckStepFunctionExecution] <;>
    split_ifs <;> simp

lemma requeueIff_CheckIfLambdaFunctionExists (req : PluginRequest) (env : CheckEnv) :
    requeueIffRunning (CheckIfLambdaFunctionExists req env) := by
  obtain ⟨se, ce, me, t, b⟩ := env
  cases se <;> cases ce <;> cases me <;>
    simp [requeueIffRunning, CheckIfLambdaFunctionExists]

lemma requeueIff_StartLambdaFunctionExecution (req : PluginRequest) (wfID : String) :
    requeueIffRunning (StartLambdaFunctionExecution req wfID).1 := by
  simp [requeueIffRunning, StartLambdaFunctionExecution]

lemma requeueIff_CheckLambdaFunctionExecution (req : PluginRequest) (wf : PluginWorkflow) :
    requeueIffRunning (CheckLambdaFunctionExecution req wf) := by
  simp only [requeueIffRunning, CheckLambdaFunctionExecution]
  split_ifs <;> simp

lemma requeueIff_mockResponse (state : String) :
    match mockResponse state with
    | none => True
    | some r => requeueIffRunning r := by
  simp only [mockResponse]
  split_ifs <;> simp [requeueIffRunning]

/-- C2: every response produced by a dispatcher operation — the existence
checks backing `validate`, the start operations, the poll operations, and
the mock short-circuit — has its should-requeue flag set exactly when its
status is the running code 3. -/
theorem C2_should_requeue_iff_running (req : PluginRequest)
    (wfID executionID jobRunID state : String) (cEnv : CheckEnv)
    (sEnv : StartCallEnv) (wf : PluginWorkflow) :
    requeueIffRunning (CheckIfSageMakerPipelineExists req cEnv) ∧
    requeueIffRunning (StartSageMakerPipelineExecution req wfID sEnv).1 ∧
    requeueIffRunning (CheckSageMakerPipelineExecution req executionID cEnv) ∧
    requeueIffRunning (CheckIfGlueJobExists req cEnv) ∧
    requeueIffRunning (StartGlueJobExecution req wfID sEnv).1 ∧
    requeueIffRunning (CheckGlueJobExecution req jobRunID cEnv) ∧
    requeueIffRunning (CheckIfStepFunctionExists req cEnv) ∧
    requeueIffRunning (StartStepFunctionExecution req wfID sEnv).1 ∧
    requeueIffRunning (CheckStepFunctionExecution req executionID cEnv) ∧
    requeueIffRunning (CheckIfLambdaFunctionExists req cEnv) ∧
    requeueIffRunning (StartLambdaFunctionExecution req wfID).1 ∧
    requeueIffRunning (CheckLambdaFunctionExecution req wf) ∧
    (match mockResponse state with
     | none => True
     | some r => requeueIffRunning r) :=
  ⟨requeueIff_CheckIfSageMakerPipelineExists req cEnv,
   requeueIff_StartSageMakerPipelineExecution req wfID sEnv,
   requeueIff_CheckSageMakerPipelineExecution req executionID cEnv,
   requeueIff_CheckIfGlueJobExists req cEnv,
   requeueIff_StartGlueJobExecution req wfID sEnv,
   requeueIff_CheckGlueJobExecution req jobRunID cEnv,
   requeueIff_CheckIfStepFunctionExists req cEnv,
   requeueIff_StartStepFunctionExecution req wfID sEnv,
   requeueIff_CheckStepFunctionExecution req executionID cEnv,
   requeueIff_CheckIfLambdaFunctionExists req cEnv,
   requeueIff_StartLambdaFunctionExecution req wfID,
   requeueIff_CheckLambdaFunctionExecution req wf,
   requeueIff_mockResponse state⟩

/-- C3: for each of the four services, the poll operation maps its native
status token to exactly one canonical outcome: the single succeeded token to
status 1 (Success), the explicit terminal-failure tokens to status 2
(Error), and every other token — documented or not — to status 3 (Running).
The environments carry no collaborator errors, so the responses below are
exactly the token-driven arms of each switch. -/
theorem C3_status_normalizer_tables (req : PluginRequest)
    (executionID jobRunID : String) (t b : String) :
    (((CheckSageMakerPipelineExecution req executionID
        { statusToken := t, serialized := b }).status = 1 ↔ t = "Succeeded") ∧
     ((CheckSageMakerPipelineExecution req executionID
        { statusToken := t, serialized := b }).status = 2 ↔
        (t = "Stopped" ∨ t = "Failed")) ∧
     ((CheckSageMakerPipelineExecution req executionID
        { statusToken := t, serialized := b }).status = 3 ↔
        ¬(t = "Succeeded" ∨ t = "Stopped" ∨ t = "Failed"))) ∧
    (((CheckGlueJobExecution req jobRunID
        { statusToken := t, serialized := b }).status = 1 ↔ t = "SUCCEEDED") ∧
     ((CheckGlueJobExecution req jobRunID
        { statusToken := t, serialized := b }).status = 2 ↔
        (t = "STOPPED" ∨ t = "FAILED" ∨ t = "ERROR" ∨ t = "TIMEOUT")) ∧
     ((CheckGlueJobExecution req jobRunID
        { statusToken := t, serialized := b }).status = 3 ↔
        ¬(t = "SUCCEEDED" ∨ t = "STOPPED" ∨ t = "FAILED" ∨ t = "ERROR" ∨ t = "TIMEOUT"))) ∧
    (((CheckStepFunctionExecution req executionID
        { statusToken := t, serialized := b }).status = 1 ↔ t = "SUCCEEDED") ∧
     ((CheckStepFunctionExecution req executionID
        { statusToken := t, serialized := b }).status = 2 ↔
        (t = "TIMED_OUT" ∨ t = "FAILED" ∨ t = "ABORTED")) ∧
     ((CheckStepFunctionExecution req executionID
        { statusToken := t, serialized := b }).status = 3 ↔
        ¬(t = "SUCCEEDED" ∨ t = "TIMED_OUT" ∨ t = "FAILED" ∨ t = "ABORTED"))) ∧
    (((CheckLambdaFunctionExecution req { id := executionID, status := t, message := b }).status = 1 ↔
        t = "SUCCEEDED") ∧
     ((CheckLambdaFunctionExecution req { id := executionID, status := t, message := b }).status = 2 ↔
        t = "FAILED") ∧
     ((CheckLambdaFunctionExecution req { id := executionID, status := t, message := b }).status = 3 ↔
        ¬(t = "SUCCEEDED" ∨ t = "FAILED"))) := by
  refine ⟨⟨?_, ?_, ?_⟩, ⟨?_, ?_, ?_⟩, ⟨?_, ?_, ?_⟩, ⟨?_, ?_, ?_⟩⟩ <;>
    · simp only [CheckSageMakerPipelineExecution, CheckGlueJobExecution,
        CheckStepFunctionExecution, CheckLambdaFunctionExecution]
      split_ifs <;> simp_all

/-- C4: when the workflow-run identifier is already present in the tracker,
dispatching `execute` leaves the tracker unchanged, issues no start call, and
issues exactly one poll call carrying the recorded external execution id
(the recorded guarded record itself on the asynchronous invocation path). -/
theorem C4_present_id_polls_only (req : PluginRequest) (wfID : String)
    (tracker : Tracker) (sEnv : StartCallEnv) (cEnv : CheckEnv) (wf : PluginWorkflow)
    (hsvc : req.serviceName ∈ allowedServiceNames)
    (hrec : lookupRecord tracker wfID = some wf) :
    (executeDispatch req wfID tracker sEnv cEnv).tracker = tracker ∧
    (∀ s, ServiceEvent.startCall s ∉ (executeDispatch req wfID tracker sEnv cEnv).events) ∧
    (req.serviceName ≠ "aws_lambda" →
      (executeDispatch req wfID tracker sEnv cEnv).events =
        [ServiceEvent.pollById req.serviceName wf.id]) ∧
    (req.serviceName = "aws_lambda" →
      (executeDispatch req wfID tracker sEnv cEnv).events =
        [ServiceEvent.pollRecord req.serviceName wf]) := by
  simp only [allowedServiceNames, List.mem_cons, List.mem_singleton,
    List.not_mem_nil, or_false] at hsvc
  rcases hsvc with h | h | h | h <;>
    simp [executeDispatch, h, hrec]

/-- Witness for C4 at a concrete glue dispatch with a previously recorded
job run id. -/
theorem C4_present_id_polls_only_witness :
    (executeDispatch
      { accountID := "100000000002", serviceName := "aws_glue",
        action := "execute", jobName := "MyJob", regionName := "us-west-2" }
      "wf-1" [("wf-1", { id := "run-9" })] {} {}).tracker
      = [("wf-1", { id := "run-9" })] ∧
    (executeDispatch
      { accountID := "100000000002", serviceName := "aws_glue",
        action := "execute", jobName := "MyJob", regionName := "us-west-2" }
      "wf-1" [("wf-1", { id := "run-9" })] {} {}).events
      = [ServiceEvent.pollById "aws_glue" "run-9"] := by
  have h := C4_present_id_polls_only
    { accountID := "100000000002", serviceName := "aws_glue",
      action := "execute", jobName := "MyJob", regionName := "us-west-2" }
    "wf-1" [("wf-1", { id := "run-9" })] {} {} { id := "run-9" }
    (by decide) (by decide)
  exact ⟨h.1, h.2.2.1 (by decide)⟩

/-- C7 counterexample: dispatching `execute` for the asynchronous invocation
service (aws_lambda) with a workflow-run identifier not yet tracked stores a
tracker record immediately, and the stored record carries an empty external
execution id — no collaborator-returned non-empty execution id is involved —
refuting the claim that a record is stored only when the start operation
succeeds and returns a non-empty external execution id. -/
theorem C7_lambda_records_without_execution_id :
    lookupRecord
      (executeDispatch
        { accountID := "100000000002", serviceName := "aws_lambda",
          action := "execute", lambdaFunctionName := "MyLambda",
          regionName := "us-west-2" }
        "wf-1" [] {} {}).tracker "wf-1"
    = some { id := "", status := "RUNNING",
             message := "running aws lambda function async execution" } := by
  decide

/-- C7 amended: for the three poll-based services (amazon_sagemaker_pipelines,
aws_glue, aws_step_functions), when the workflow-run identifier is untracked,
a failed start interaction (collaborator error or empty external execution
id) yields a reply with phase Error and leaves the tracker unchanged, while a
successful start stores exactly the returned external execution id under the
workflow-run identifier and reports status 3 (Running); the asynchronous
invocation service (aws_lambda) instead stores a RUNNING record with an empty
external execution id unconditionally and reports status 3. -/
theorem C7_amended_start_recording (req : PluginRequest) (wfID : String)
    (tracker : Tracker) (sEnv : StartCallEnv) (cEnv : CheckEnv)
    (habs : lookupRecord tracker wfID = none) :
    (req.serviceName = "amazon_sagemaker_pipelines" ∨ req.serviceName = "aws_glue" ∨
        req.serviceName = "aws_step_functions" →
      (sEnv.ok = false →
        (executeDispatch req wfID tracker sEnv cEnv).tracker = tracker ∧
        (buildReply (executeDispatch req wfID tracker sEnv cEnv).resp).phase =
          some NodePhase.error) ∧
      (sEnv.ok = true →
        (executeDispatch req wfID tracker sEnv cEnv).tracker =
          (wfID, { id := sEnv.executionId }) :: tracker ∧
        (executeDispatch req wfID tracker sEnv cEnv).resp.status = 3)) ∧
    (req.serviceName = "aws_lambda" →
      (executeDispatch req wfID tracker sEnv cEnv).tracker =
        (wfID, { id := "", status := "RUNNING",
                 message := "running aws lambda function async execution" }) :: tracker ∧
      (executeDispatch req wfID tracker sEnv cEnv).resp.status = 3) := by
  rcases sEnv with ⟨se, ce, me, xid, b⟩
  constructor
  · rintro (h | h | h) <;>
      (constructor <;> intro hok <;>
        cases se <;> cases ce <;> cases me <;>
          simp_all [executeDispatch, habs, StartSageMakerPipelineExecution,
            StartGlueJobExecution, StartStepFunctionExecution, StartCallEnv.ok,
            insertRecord, buildReply, WireReply.phase])
  · intro h
    simp [executeDispatch, h, habs, StartLambdaFunctionExecution]

/-- Witness for C7 amended at a concrete step-function dispatch whose start
interaction succeeds with execution id exec-1. -/
theorem C7_amended_start_recording_witness :
    (executeDispatch
      { accountID := "100000000002", serviceName := "aws_step_functions",
        action := "execute", stepFunctionName := "MyStepFunction",
        regionName := "us-west-2" }
      "wf-1" [] { executionId := "exec-1", serialized := "{}" } {}).tracker
      = [("wf-1", { id := "exec-1" })] ∧
    (executeDispatch
      { accountID := "100000000002", serviceName := "aws_step_functions",
        action := "execute", stepFunctionName := "MyStepFunction",
        regionName := "us-west-2" }
      "wf-1" [] { executionId := "exec-1", serialized := "{}" } {}).resp.status = 3 := by
  have h := C7_amended_start_recording
    { accountID := "100000000002", serviceName := "aws_step_functions",
      action := "execute", stepFunctionName := "MyStepFunction",
      regionName := "us-west-2" }
    "wf-1" [] { executionId := "exec-1", serialized := "{}" } {} (by decide)
  exact (h.1 (by simp)).2 (by decide)

/-- C6: the response builder maps status 1 with no supplied message to a
succeeded reply with default message success; status 2 with no supplied
message to an error reply whose message is the execution error when present
and the generic error otherwise; status 3 to a running reply with default
message running and a 60-second requeue when the dispatcher supplied none
(the dispatcher-supplied duration — 5 seconds on the asynchronous invocation
path — is preserved otherwise); and any other status, in particular the
zero-value 0, to an error reply, never a succeeded one. -/
theorem C6_reply_builder_mapping :
    (∀ resp : PluginResponse, resp.requestError = none →
      (resp.status = 1 → resp.message = "" →
        buildReply resp = WireReply.ok
          { phase := NodePhase.succeeded, message := "success",
            requeue := resp.requeueDuration }) ∧
      (resp.status = 2 → resp.message = "" → ∀ e, resp.executionError = some e →
        buildReply resp = WireReply.ok
          { phase := NodePhase.error, message := e,
            requeue := resp.requeueDuration }) ∧
      (resp.status = 2 → resp.message = "" → resp.executionError = none →
        buildReply resp = WireReply.ok
          { phase := NodePhase.error, message := "error",
            requeue := resp.requeueDuration }) ∧
      (resp.status = 3 → resp.message = "" → resp.requeueDuration = none →
        buildReply resp = WireReply.ok
          { phase := NodePhase.running, message := "running", requeue := some 60 }) ∧
      (resp.status = 3 → ∀ d, resp.requeueDuration = some d →
        ∃ m, buildReply resp = WireReply.ok
          { phase := NodePhase.running, message := m, requeue := some d }) ∧
      (resp.status ≠ 1 → resp.status ≠ 2 → resp.status ≠ 3 →
        (buildReply resp).phase = some NodePhase.error)) ∧
    (∀ (req : PluginRequest) (wfID : String),
      (StartLambdaFunctionExecution req wfID).1.requeueDuration = some 5) ∧
    (∀ (req : PluginRequest) (wf : PluginWorkflow),
      wf.status ≠ "SUCCEEDED" → wf.status ≠ "FAILED" →
      (CheckLambdaFunctionExecution req wf).requeueDuration = some 5) := by
  refine ⟨?_, ?_, ?_⟩
  · intro resp hre
    obtain ⟨m, st, sr, rd, re, ee⟩ := resp
    simp only at hre
    subst hre
    refine ⟨?_, ?_, ?_, ?_, ?_, ?_⟩
    · intro h1 hm
      subst h1; subst hm
      simp [buildReply]
    · intro h2 hm e he
      subst h2; subst hm; subst he
      simp [buildReply]
    · intro h2 hm he
      subst h2; subst hm; subst he
      simp [buildReply]
    · intro h3 hm hrd
      subst h3; subst hm; subst hrd
      simp [buildReply]
    · intro h3 d hd
      subst h3; subst hd
      exact ⟨if m = "" then "running" else m, by simp [buildReply]⟩
    · intro h1 h2 h3
      simp [buildReply, WireReply.phase, h1, h2, h3]
  · intro req wfID
    simp [StartLambdaFunctionExecution]
  · intro req wf h1 h2
    simp [CheckLambdaFunctionExecution, h1, h2]

/-- Witness for C6 at concrete responses: a bare running response gets the
default 60-second requeue and message, and a status 2 response with an
execution error surfaces that error as the reply message. -/
theorem C6_reply_builder_mapping_witness :
    buildReply { status := 3 } = WireReply.ok
      { phase := NodePhase.running, message := "running", requeue := some 60 } ∧
    buildReply { status := 2, executionError := some "boom" } = WireReply.ok
      { phase := NodePhase.error, message := "boom", requeue := none } := by
  constructor
  · exact ((C6_reply_builder_mapping.1 { status := 3 } rfl).2.2.2.1) rfl rfl rfl
  · exact ((C6_reply_builder_mapping.1
      { status := 2, executionError := some "boom" } rfl).2.1) rfl rfl "boom" rfl

lemma str_eq_empty_of_length_eq_zero (a : String) (h : a.length = 0) : a = "" := by
  obtain ⟨l⟩ := a
  cases l with
  | nil => rfl
  | cons c cs => simp [String.length] at h

lemma string_append_eq_empty_iff (a b : String) : a ++ b = "" ↔ a = "" ∧ b = "" := by
  constructor
  · intro h
    have hl : (a ++ b).length = 0 := by rw [h]; rfl
    rw [String.length_append] at hl
    exact ⟨str_eq_empty_of_length_eq_zero a (by omega),
           str_eq_empty_of_length_eq_zero b (by omega)⟩
  · rintro ⟨rfl, rfl⟩
    rfl

/-- asyncRunOk tells whether the detached unit of work of the asynchronous
invocation path runs to completion: no recovered fault, no session error, no
payload serialization error (relevant only when the request carries a
parameter mapping), no invoke error, no output serialization error. -/
def asyncRunOk (req : PluginRequest) (env : AsyncEnv) : Bool :=
  env.panicMsg.isNone && env.sessionErr.isNone &&
    (req.parameters.isNone || env.payloadMarshalErr.isNone) &&
    env.invokeErr.isNone && env.outputMarshalErr.isNone

/-- C8: the detached unit of work of the asynchronous invocation path always
terminates in a recorded outcome: on a clean run the record status becomes
SUCCEEDED with the serialized collaborator result as its message, and on any
failure — including a recovered runtime fault — the record status becomes
FAILED with a non-empty descriptive message (under the assumption that a
recovered fault carries a non-empty error text). -/
theorem C8_async_runner_records_outcome (req : PluginRequest) (env : AsyncEnv)
    (wf : PluginWorkflow) (hp : env.panicMsg ≠ some "") :
    (asyncRunOk req env = true →
      InvokeLambdaFunctionAsync req env wf =
        { wf with status := "SUCCEEDED", message := env.serialized }) ∧
    (asyncRunOk req env = false →
      (InvokeLambdaFunctionAsync req env wf).status = "FAILED" ∧
      (InvokeLambdaFunctionAsync req env wf).message ≠ "") := by
  obtain ⟨pm, se, pe, ie, oe, ser⟩ := env
  constructor
  · intro hok
    cases pm <;> cases se <;> cases ie <;> cases oe <;> cases pe <;>
      cases hq : req.parameters <;>
      simp_all [asyncRunOk, InvokeLambdaFunctionAsync]
  · intro hbad
    cases pm <;> cases se <;> cases ie <;> cases oe <;> cases pe <;>
      cases hq : req.parameters <;>
      simp_all [asyncRunOk, InvokeLambdaFunctionAsync, string_append_eq_empty_iff]

/-- Witness for C8 at a concrete clean run and a concrete run whose invoke
call fails. -/
theorem C8_async_runner_records_outcome_witness :
    InvokeLambdaFunctionAsync
      { accountID := "100000000002", serviceName := "aws_lambda",
        action := "execute", lambdaFunctionName := "MyLambda",
        regionName := "us-west-2" }
      { serialized := "output" } { status := "RUNNING" } =
      { status := "SUCCEEDED", message := "output" } ∧
    (InvokeLambdaFunctionAsync
      { accountID := "100000000002", serviceName := "aws_lambda",
        action := "execute", lambdaFunctionName := "MyLambda",
        regionName := "us-west-2" }
      { invokeErr := some "access denied" } { status := "RUNNING" }).status
      = "FAILED" := by
  constructor
  · exact (C8_async_runner_records_outcome
      { accountID := "100000000002", serviceName := "aws_lambda",
        action := "execute", lambdaFunctionName := "MyLambda",
        regionName := "us-west-2" }
      { serialized := "output" } { status := "RUNNING" } (by decide)).1 (by decide)
  · exact ((C8_async_runner_records_outcome
      { accountID := "100000000002", serviceName := "aws_lambda",
        action := "execute", lambdaFunctionName := "MyLambda",
        regionName := "us-west-2" }
      { invokeErr := some "access denied" } { status := "RUNNING" } (by decide)).2
      (by decide)).1

/-- claimedArnForm is the identifier template the specification ascribes to
all four services, written from the words of the spec: provider,
service-type, region, account, and resource-kind separated by colons, with
the resource name attached after a slash. -/
def claimedArnForm (provider serviceType region account resourceKind name : String) : String :=
  provider ++ ":" ++ serviceType ++ ":" ++ region ++ ":" ++ account ++ ":" ++
    resourceKind ++ "/" ++ name

lemma mem_data_append (c : Char) (a b : String) :
    c ∈ (a ++ b).data ↔ c ∈ a.data ∨ c ∈ b.data := by
  rw [String.data_append]
  exact List.mem_append

/-- C5 counterexample: the validated aws_lambda request below derives the
identifier arn:aws:lambda:us-west-2:100000000002:function:MyLambda, which
contains no slash at all, so it is not an instance of the claimed template
shape ending in resource-kind slash name (the aws_step_functions template
fails the same way); the claim that every service template has the form
provider:service-type:region:account:resource-kind/name is false. -/
theorem C5_lambda_arn_not_slash_form :
    (PluginRequest.validate
      { accountID := "100000000002", serviceName := "aws_lambda",
        action := "execute", lambdaFunctionName := "MyLambda",
        regionName := "us-west-2" }).1 = none ∧
    (PluginRequest.validate
      { accountID := "100000000002", serviceName := "aws_lambda",
        action := "execute", lambdaFunctionName := "MyLambda",
        regionName := "us-west-2" }).2.resourceArn
      = "arn:aws:lambda:us-west-2:100000000002:function:MyLambda" ∧
    ¬ ∃ provider serviceType resourceKind,
        (PluginRequest.validate
          { accountID := "100000000002", serviceName := "aws_lambda",
            action := "execute", lambdaFunctionName := "MyLambda",
            regionName := "us-west-2" }).2.resourceArn
        = claimedArnForm provider serviceType "us-west-2" "100000000002"
            resourceKind "MyLambda" := by
  refine ⟨by decide, by decide, ?_⟩
  rintro ⟨p, t, k, hform⟩
  have hlit : (PluginRequest.validate
      { accountID := "100000000002", serviceName := "aws_lambda",
        action := "execute", lambdaFunctionName := "MyLambda",
        regionName := "us-west-2" }).2.resourceArn
      = "arn:aws:lambda:us-west-2:100000000002:function:MyLambda" := by decide
  rw [hlit] at hform
  have hslash : Char.mk 47 (by decide) ∈ ("/" : String).data := by decide
  have hmem : Char.mk 47 (by decide) ∈
      (claimedArnForm p t "us-west-2" "100000000002" k "MyLambda").data := by
    simp only [claimedArnForm, mem_data_append]
    exact Or.inl (Or.inr hslash)
  rw [← hform] at hmem
  exact absurd hmem (by decide)

/-- C5 amended: a request that passes validation has its resource identifier
assigned during validation from the fixed per-service template — colon-joined
provider, service type, region, and account, followed by pipeline/name and
job/name for amazon_sagemaker_pipelines and aws_glue but by
stateMachine:name and function:name for aws_step_functions and aws_lambda —
so the identifier is deterministic in (service, account, region, name) and
never taken from the caller-supplied field. -/
theorem C5_amended_arn_templates (req : PluginRequest)
    (h : (req.validate).1 = none) :
    (req.serviceName = "amazon_sagemaker_pipelines" →
      (req.validate).2.resourceArn =
        sageMakerPipelineArn req.regionName req.accountID req.pipelineName) ∧
    (req.serviceName = "aws_glue" →
      (req.validate).2.resourceArn =
        glueJobArn req.regionName req.accountID req.jobName) ∧
    (req.serviceName = "aws_step_functions" →
      (req.validate).2.resourceArn =
        stepFunctionArn req.regionName req.accountID req.stepFunctionName) ∧
    (req.serviceName = "aws_lambda" →
      (req.validate).2.resourceArn =
        lambdaFunctionArn req.regionName req.accountID req.lambdaFunctionName) := by
  unfold PluginRequest.validate at h ⊢
  split_ifs at h ⊢ with h1 h2 h3 h4 h5 h6
  rcases hv : validateServiceFields req with ⟨oe, r2⟩
  simp only [hv] at h ⊢
  cases oe with
  | some e => simp at h
  | none =>
    refine ⟨?_, ?_, ?_, ?_⟩ <;> intro hs
    all_goals simp [validateServiceFields, hs] at hv
    all_goals split_ifs at hv with hname
    all_goals simp at hv
    all_goals subst hv
    all_goals simp

/-- Witness for C5 amended at the concrete sagemaker request of the spec
example. -/
theorem C5_amended_arn_templates_witness :
    (PluginRequest.validate
      { accountID := "100000000002", serviceName := "amazon_sagemaker_pipelines",
        action := "execute", pipelineName := "MyPipeline",
        regionName := "us-west-2" }).2.resourceArn
    = sageMakerPipelineArn "us-west-2" "100000000002" "MyPipeline" :=
  (C5_amended_arn_templates
    { accountID := "100000000002", serviceName := "amazon_sagemaker_pipelines",
      action := "execute", pipelineName := "MyPipeline",
      regionName := "us-west-2" } (by decide)).1 rfl

/-- requiredNameMissing holds when the per-service name field the chosen
service requires is empty. -/
def requiredNameMissing (req : PluginRequest) : Prop :=
  (req.serviceName = "amazon_sagemaker_pipelines" ∧ req.pipelineName = "") ∨
  (req.serviceName = "aws_glue" ∧ req.jobName = "") ∨
  (req.serviceName = "aws_step_functions" ∧ req.stepFunctionName = "") ∨
  (req.serviceName = "aws_lambda" ∧ req.lambdaFunctionName = "")

/-- derivedResourceArn is the identifier the per-service switch of `Validate`
assigns (the request's own field is kept only for an unsupported service,
which the earlier checks exclude). -/
def derivedResourceArn (req : PluginRequest) : String :=
  if req.serviceName = "amazon_sagemaker_pipelines" then
    sageMakerPipelineArn req.regionName req.accountID req.pipelineName
  else if req.serviceName = "aws_glue" then
    glueJobArn req.regionName req.accountID req.jobName
  else if req.serviceName = "aws_step_functions" then
    stepFunctionArn req.regionName req.accountID req.stepFunctionName
  else if req.serviceName = "aws_lambda" then
    lambdaFunctionArn req.regionName req.accountID req.lambdaFunctionName
  else req.resourceArn

lemma validateServiceFields_frame (q : PluginRequest) :
    (validateServiceFields q).2.kind = q.kind ∧
    (validateServiceFields q).2.accountID = q.accountID ∧
    (validateServiceFields q).2.serviceName = q.serviceName ∧
    (validateServiceFields q).2.action = q.action ∧
    (validateServiceFields q).2.pipelineName = q.pipelineName ∧
    (validateServiceFields q).2.jobName = q.jobName ∧
    (validateServiceFields q).2.stepFunctionName = q.stepFunctionName ∧
    (validateServiceFields q).2.lambdaFunctionName = q.lambdaFunctionName ∧
    (validateServiceFields q).2.parameters = q.parameters ∧
    (validateServiceFields q).2.regionName = q.regionName ∧
    (validateServiceFields q).2.mock = q.mock ∧
    (validateServiceFields q).2.mockState = q.mockState := by
  unfold validateServiceFields
  split_ifs <;> simp

lemma validateServiceFields_fst_none_iff (q : PluginRequest) :
    (validateServiceFields q).1 = none ↔ ¬ requiredNameMissing q := by
  unfold validateServiceFields
  split_ifs <;> simp_all [requiredNameMissing]

lemma validateServiceFields_arn (q : PluginRequest)
    (hname : ¬ requiredNameMissing q) :
    (validateServiceFields q).2.resourceArn = derivedResourceArn q := by
  unfold validateServiceFields derivedResourceArn
  split_ifs <;> simp_all [requiredNameMissing]

lemma validateMockState_ne_none_iff (q : PluginRequest) :
    ¬ validateMockState q = none ↔
      (q.mock = true ∧ (q.mockState = "" ∨ q.mockState ∉ allowedMockStates)) := by
  unfold validateMockState
  split_ifs with hm h0 hin <;> simp_all

lemma validate_eq_of_checks (q : PluginRequest)
    (hacc : q.accountID ≠ "") (hreg : q.regionName ≠ "")
    (hsvc : q.serviceName ∈ allowedServiceNames) (hact : q.action ∈ allowedActions) :
    q.validate =
      match validateServiceFields q with
      | (some e, r) => (some e, r)
      | (none, r) => (validateMockState r, r) := by
  have hsne : q.serviceName ≠ "" := by
    rintro h
    rw [h] at hsvc
    simp [allowedServiceNames] at hsvc
  have hane : q.action ≠ "" := by
    rintro h
    rw [h] at hact
    simp [allowedActions] at hact
  unfold PluginRequest.validate
  simp [hacc, hreg, hsvc, hact, hsne, hane]

lemma validate_frame (q : PluginRequest) :
    (q.validate).2.kind = q.kind ∧
    (q.validate).2.accountID = q.accountID ∧
    (q.validate).2.serviceName = q.serviceName ∧
    (q.validate).2.action = q.action ∧
    (q.validate).2.pipelineName = q.pipelineName ∧
    (q.validate).2.jobName = q.jobName ∧
    (q.validate).2.stepFunctionName = q.stepFunctionName ∧
    (q.validate).2.lambdaFunctionName = q.lambdaFunctionName ∧
    (q.validate).2.parameters = q.parameters ∧
    (q.validate).2.regionName = q.regionName ∧
    (q.validate).2.mock = q.mock ∧
    (q.validate).2.mockState = q.mockState := by
  unfold PluginRequest.validate
  split_ifs
  all_goals try exact ⟨rfl, rfl, rfl, rfl, rfl, rfl, rfl, rfl, rfl, rfl, rfl, rfl⟩
  rcases hv : validateServiceFields q with ⟨oe, r2⟩
  have hfr := validateServiceFields_frame q
  rw [hv] at hfr
  cases oe <;> simpa using hfr

/-- c9Req is a concrete request whose fields all pass the enumerated checks
of the claim but which carries mock mode with an empty mock state. -/
def c9Req : PluginRequest :=
  { accountID := "100000000002", serviceName := "aws_glue",
    action := "execute", jobName := "MyJob", regionName := "us-west-2",
    mock := true, mockState := "" }

/-- C9 counterexample: the request below satisfies none of the failure
conditions the claim enumerates — account id, service, action, region and the
required per-service name field are all non-empty, the service and action are
supported — yet validation fails, because the claim omits the mock-state
checks: the request has mock set with an empty mock state. -/
theorem C9_validation_fails_outside_listed_conditions :
    (c9Req.accountID ≠ "" ∧ c9Req.serviceName ≠ "" ∧ c9Req.action ≠ "" ∧
     c9Req.regionName ≠ "" ∧ c9Req.serviceName ∈ allowedServiceNames ∧
     c9Req.action ∈ allowedActions ∧ ¬ requiredNameMissing c9Req) ∧
    (c9Req.validate).1 = some "mock state is empty" := by
  refine ⟨⟨by decide, by decide, by decide, by decide, by decide, by decide, ?_⟩, by decide⟩
  simp [requiredNameMissing, c9Req]

/-- C9 amended: validation fails exactly when account id, service, action, or
region is empty, the service or the action is unsupported, the per-service
name field required by the chosen service is empty, or — the case the claim
missed — mock is set with an empty or unsupported mock state; and when the
failure is a missing per-service name field, the error message names that
field. -/
theorem C9_amended_validation_failure_conditions (req : PluginRequest) :
    (¬ (req.validate).1 = none ↔
      (req.accountID = "" ∨ req.serviceName = "" ∨ req.action = "" ∨
       req.regionName = "" ∨ req.serviceName ∉ allowedServiceNames ∨
       req.action ∉ allowedActions ∨ requiredNameMissing req ∨
       (req.mock = true ∧ (req.mockState = "" ∨ req.mockState ∉ allowedMockStates)))) ∧
    (req.accountID ≠ "" → req.regionName ≠ "" →
     req.serviceName ∈ allowedServiceNames → req.action ∈ allowedActions →
      ((req.serviceName = "amazon_sagemaker_pipelines" → req.pipelineName = "" →
          (req.validate).1 = some "pipeline_name is empty") ∧
       (req.serviceName = "aws_glue" → req.jobName = "" →
          (req.validate).1 = some "job_name is empty") ∧
       (req.serviceName = "aws_step_functions" → req.stepFunctionName = "" →
          (req.validate).1 = some "step_function_name is empty") ∧
       (req.serviceName = "aws_lambda" → req.lambdaFunctionName = "" →
          (req.validate).1 = some "lambda_function_name is empty"))) := by
  constructor
  · unfold PluginRequest.validate
    split_ifs with h1 h2 h3 h4 h5 h6
    · simp [h1]
    · simp [h2]
    · simp [h3]
    · simp [h4]
    case neg => simp [h6]
    case neg => simp [h5]
    · rcases hv : validateServiceFields req with ⟨oe, r2⟩
      by_cases hrn : requiredNameMissing req
      · have hne : ¬ oe = none := by
          intro h0
          have := (validateServiceFields_fst_none_iff req).mp (by rw [hv, h0])
          exact this hrn
        cases oe with
        | none => exact absurd rfl hne
        | some e => simp [hrn]
      · have hoe : oe = none := by
          have := (validateServiceFields_fst_none_iff req).mpr hrn
          rw [hv] at this
          exact this
        subst hoe
        have hfr := validateServiceFields_frame req
        rw [hv] at hfr
        obtain ⟨-, -, -, -, -, -, -, -, -, -, hm2, hs2⟩ := hfr
        simp only at hm2 hs2
        simp only [validateMockState_ne_none_iff r2, hm2, hs2]
        simp [h1, h2, h3, h4, h5, h6, hrn]
  · intro hacc hreg hsvc hact
    have key := validate_eq_of_checks req hacc hreg hsvc hact
    refine ⟨?_, ?_, ?_, ?_⟩ <;> intro hs hname <;>
      rw [key] <;> simp [validateServiceFields, hs, hname]

/-- Witness for C9 amended: a supported glue request with an empty job name
fails validation with the message naming the job_name field, and the iff
applies to it. -/
theorem C9_amended_validation_failure_conditions_witness :
    (PluginRequest.validate
      { accountID := "100000000002", serviceName := "aws_glue",
        action := "execute", regionName := "us-west-2" }).1
      = some "job_name is empty" :=
  ((C9_amended_validation_failure_conditions
    { accountID := "100000000002", serviceName := "aws_glue",
      action := "execute", regionName := "us-west-2" }).2
    (by decide) (by decide) (by decide) (by decide)).2.1 rfl rfl

/-- C10: validation never mutates any request field other than the derived
resource identifier, and the identifier assignment happens before the
mock-state checks: a request that passes every earlier check but fails
because mock is set with an empty or unsupported mock state comes out of the
failed validation with its resource identifier already overwritten by the
derived per-service value. -/
theorem C10_validate_frame_and_mock_arn (req : PluginRequest)
    (hacc : req.accountID ≠ "") (hreg : req.regionName ≠ "")
    (hsvc : req.serviceName ∈ allowedServiceNames)
    (hact : req.action ∈ allowedActions)
    (hname : ¬ requiredNameMissing req) (hmock : req.mock = true)
    (hstate : req.mockState = "" ∨ req.mockState ∉ allowedMockStates) :
    (∀ q : PluginRequest,
      (q.validate).2.kind = q.kind ∧
      (q.validate).2.accountID = q.accountID ∧
      (q.validate).2.serviceName = q.serviceName ∧
      (q.validate).2.action = q.action ∧
      (q.validate).2.pipelineName = q.pipelineName ∧
      (q.validate).2.jobName = q.jobName ∧
      (q.validate).2.stepFunctionName = q.stepFunctionName ∧
      (q.validate).2.lambdaFunctionName = q.lambdaFunctionName ∧
      (q.validate).2.parameters = q.parameters ∧
      (q.validate).2.regionName = q.regionName ∧
      (q.validate).2.mock = q.mock ∧
      (q.validate).2.mockState = q.mockState) ∧
    ¬ (req.validate).1 = none ∧
    (req.validate).2.resourceArn = derivedResourceArn req := by
  have key := validate_eq_of_checks req hacc hreg hsvc hact
  have hoe : (validateServiceFields req).1 = none :=
    (validateServiceFields_fst_none_iff req).mpr hname
  have harn := validateServiceFields_arn req hname
  have hfr := validateServiceFields_frame req
  rcases hv : validateServiceFields req with ⟨oe, r2⟩
  rw [hv] at key hoe harn hfr
  simp only at hoe
  subst hoe
  obtain ⟨-, -, -, -, -, -, -, -, -, -, hm2, hs2⟩ := hfr
  simp only at hm2 hs2 harn
  refine ⟨fun q => validate_frame q, ?_, ?_⟩
  · rw [key]
    simp only
    rw [validateMockState_ne_none_iff r2, hm2, hs2]
    exact ⟨hmock, hstate⟩
  · rw [key]
    exact harn

/-- Witness for C10 at a concrete sagemaker request carrying an unsupported
mock state: validation fails, yet the resource identifier has been
assigned. -/
theorem C10_validate_frame_and_mock_arn_witness :
    ¬ (PluginRequest.validate
      { accountID := "100000000002", serviceName := "amazon_sagemaker_pipelines",
        action := "execute", pipelineName := "MyPipeline",
        regionName := "us-west-2", mock := true, mockState := "bogus" }).1 = none ∧
    (PluginRequest.validate
      { accountID := "100000000002", serviceName := "amazon_sagemaker_pipelines",
        action := "execute", pipelineName := "MyPipeline",
        regionName := "us-west-2", mock := true, mockState := "bogus" }).2.resourceArn
      = derivedResourceArn
        { accountID := "100000000002", serviceName := "amazon_sagemaker_pipelines",
          action := "execute", pipelineName := "MyPipeline",
          regionName := "us-west-2", mock := true, mockState := "bogus" } := by
  have h := C10_validate_frame_and_mock_arn
    { accountID := "100000000002", serviceName := "amazon_sagemaker_pipelines",
      action := "execute", pipelineName := "MyPipeline",
      regionName := "us-west-2", mock := true, mockState := "bogus" }
    (by decide) (by decide) (by decide) (by decide)
    (by simp [requiredNameMissing]) (by decide) (by decide)
  exact ⟨h.2.1, h.2.2⟩

/-- C1: the code rejects the documented mock outcome at validation while the
dispatcher implements it. The concrete facts: the allowed mock-state set
contains only running and success; a fully valid request carrying mock mode
with mock state error fails validation with the message that the state is
unsupported; yet the dispatcher mock switch, were such a request to reach it,
maps state error to a status 2 response with a non-empty execution error,
which the reply builder renders as phase Error with that non-empty message —
the behavior the claim (and the spec) describe. -/
theorem C1_mock_error_rejected_despite_dispatch_branch :
    ("error" ∉ allowedMockStates) ∧
    (PluginRequest.validate
      { accountID := "100000000002", serviceName := "aws_glue",
        action := "execute", jobName := "MyJob", regionName := "us-west-2",
        mock := true, mockState := "error" }).1
      = some "mock state error is not supported" ∧
    mockResponse "error" =
      some { status := 2,
             executionError := some "failed execution: expected mock error" } ∧
    (buildReply
      { status := 2,
        executionError := some "failed execution: expected mock error" }).phase
      = some NodePhase.error ∧
    (buildReply
      { status := 2,
        executionError := some "failed execution: expected mock error" }).message
      = some "failed execution: expected mock error" ∧
    mockResponse "success" = some { status := 1 } ∧
    mockResponse "running" = some { shouldRequeue := true, status := 3 } := by
  decide

example :
    (PluginRequest.validate
      { accountID := "100000000002", serviceName := "amazon_sagemaker_pipelines",
        action := "execute", pipelineName := "MyPipeline",
        regionName := "us-west-2" }).2.resourceArn
    = "arn:aws:sagemaker:us-west-2:100000000002:pipeline/MyPipeline" := by
  decide

example :
    (PluginRequest.validate
      { accountID := "100000000002", serviceName := "aws_glue",
        action := "execute", jobName := "MyJob", regionName := "us-west-2",
        mock := true, mockState := "error" }).1
    = some "mock state error is not supported" := by
  decide

end ArgoAwsPlugin
